import Mathlib

/-
  Verification of the "around" (context-window) search handler of the
  OpenObserve slice, `src/handler/http/request/search/around.rs`.

  The handler is embedded shallowly: its pure data flow is translated into
  Lean definitions, the external collaborators (SQL augmentation, order-by
  injection, the distributed search engine, the work-group picker, the
  queue-enabled configuration flag) are passed in as explicit parameters,
  and the handler's observable side effects (metrics gauge increments,
  lock acquisition, search dispatches, usage reporting) are recorded as an
  explicit event trace returned next to the HTTP response.
-/

namespace OO

/-- JSON values, the subset the handler inspects (serde_json::Value).
Objects are association lists of string keys, as produced by the parser;
the handler only ever reads keys, so ordering is irrelevant. -/
inductive JVal where
  | null : JVal
  | bool : Bool → JVal
  | int : Int → JVal
  | str : String → JVal
  | obj : List (String × JVal) → JVal

/-- Lookup of a key in a JSON object's field list (serde_json Map::get). -/
def JVal.objGet : List (String × JVal) → String → Option JVal
  | [], _ => none
  | (k, v) :: rest, f => if f = k then some v else JVal.objGet rest f

/-- serde_json Value::as_i64: an integer number yields itself. -/
def JVal.as_i64 : JVal → Option Int
  | .int n => some n
  | _ => none

/-- serde_json Value::is_null. -/
def JVal.isNull : JVal → Bool
  | .null => true
  | _ => false

/-- Modelled from the spec: config's `get_string_value` renders a JSON value
as the string stored in the filter set (spec section 3: "mapping from field
name to string value"); the utility itself lives outside the provided slice.
Strings pass through unchanged, numbers and booleans print, anything else
gives the empty string. -/
def get_string_value : JVal → String
  | .str s => s
  | .int n => toString n
  | .bool b => if b then "true" else "false"
  | _ => ""

/-- Search event type tag; the handler always uses the interactive UI tag. -/
inductive SearchEventType where
  | UI : SearchEventType
deriving DecidableEq

/-- Request encoding; the handler always sends Empty. -/
inductive RequestEncoding where
  | Empty : RequestEncoding
deriving DecidableEq

/-- config::meta::search::Query, the fields the handler populates
(lines 170-184 and 226-240 of around.rs). -/
structure Query where
  sql : String
  «from» : Int
  size : Int
  start_time : Int
  end_time : Int
  quick_mode : Bool
  query_type : String
  track_total_hits : Bool
  uses_zo_fn : Bool
  query_fn : Option String
  action_id : Option String
  skip_wal : Bool
  streaming_output : Bool
  streaming_id : Option String
deriving DecidableEq

/-- config::meta::search::Request as constructed by the handler. -/
structure Request where
  query : Query
  encoding : RequestEncoding
  regions : List String
  clusters : List String
  timeout : Int
  search_type : Option SearchEventType
  search_event_context : Option String
  use_cache : Option Bool
deriving DecidableEq

/-- Per-phase timing breakdown carried by a search response; the handler
only reads the cluster queue-wait component. -/
structure ResponseTook where
  cluster_wait_queue : Int
deriving DecidableEq

/-- config::meta::search::Response (the WindowResult / ContextResponse
record). The type lives outside the provided slice; its shape is modelled
from the handler's use sites and the spec's WindowResult / ContextResponse
descriptions: hit sequence, scan size, elapsed time, integer cache-hit
ratio, work-group label, optional per-phase timing, plus the frame fields
the handler never touches. -/
structure Response where
  took : Nat
  took_detail : Option ResponseTook
  columns : List String
  hits : List JVal
  total : Nat
  «from» : Int
  size : Int
  cached_ratio : Nat
  scan_size : Int
  idx_scan_size : Int
  scan_records : Nat
  trace_id : String
  function_error : List String
  is_partial : Bool
  work_group : Option String
  result_cache_ratio : Nat

/-- Response::default(): empty hits, zero counters, no optional data. -/
def Response.default : Response :=
  { took := 0, took_detail := none, columns := [], hits := [], total := 0,
    «from» := 0, size := 0, cached_ratio := 0, scan_size := 0,
    idx_scan_size := 0, scan_records := 0, trace_id := "",
    function_error := [], is_partial := false, work_group := none,
    result_cache_ratio := 0 }

namespace errors

/-- infra::errors::ErrorCodes, collapsed to the distinction the handler's
match makes: the cancelled/overloaded code `SearchCancelQuery` versus every
other classified code (represented by its variant tag and message). -/
inductive ErrorCodes where
  | SearchCancelQuery : String → ErrorCodes
  | otherCode : String → String → ErrorCodes
deriving DecidableEq

/-- infra::errors::Error, collapsed to the distinction the handler's match
makes: the `ErrorCode` variant versus every other variant, the latter
represented by its Display rendering (`err.to_string()`). -/
inductive Error where
  | ErrorCode : ErrorCodes → Error
  | Message : String → Error
deriving DecidableEq

/-- err.to_string() for the modelled error. -/
def Error.toMessage : Error → String
  | .Message m => m
  | .ErrorCode (.SearchCancelQuery m) => m
  | .ErrorCode (.otherCode _ m) => m

end errors

/-- Body of the HTTP response the handler produces: either the structured
error body carrying a classified code and the trace id
(meta::http::HttpResponse::error_code_with_trace_id), a generic error body
carrying a status code and message (meta::http::HttpResponse::error), or a
successful search response serialized as JSON. -/
inductive HttpBody where
  | error_code_with_trace_id : errors.ErrorCodes → Option String → HttpBody
  | errorMsg : Nat → String → HttpBody
  | searchResponse : Response → HttpBody

/-- An HTTP response: numeric status plus body. -/
structure HttpResponse where
  status : Nat
  body : HttpBody

/-- Does the response body carry any hit payload? Only a serialized search
response does; the error bodies carry no hits. -/
def HttpBody.hasHits : HttpBody → Bool
  | .searchResponse _ => true
  | _ => false

/-- Hits visible in a handler outcome; error outcomes expose none. -/
def response_hits : Except String HttpResponse → List JVal
  | .ok r => match r.body with
    | .searchResponse resp => resp.hits
    | _ => []
  | .error _ => []

/-- config::meta::self_reporting::usage::RequestStats, the fields the
handler populates (floating-point latency fields are outside the model). -/
structure RequestStats where
  records : Int
  request_body : Option String
  user_email : Option String
  min_ts : Option Int
  max_ts : Option Int
  cached_ratio : Option Nat
  trace_id : Option String
  took_wait_in_queue : Option Int
  work_group : Option String

/-- RequestStats::default(). -/
def RequestStats.default : RequestStats :=
  { records := 0, request_body := none, user_email := none, min_ts := none,
    max_ts := none, cached_ratio := none, trace_id := none,
    took_wait_in_queue := none, work_group := none }

/-- Observable side effects of the handler, in program order: gauge
increment/decrement on QUERY_PENDING_NUMS for an organization, acquisition
and early drop of the process-wide queue lock, a search dispatch to the
execution engine, a reported http metric, and the usage record emission. -/
inductive Event where
  | gaugeInc : String → Event
  | lockAcquire : Event
  | lockDrop : Event
  | gaugeDec : String → Event
  | dispatch : Request → Event
  | reportMetrics : String → String → Event
  | reportUsage : RequestStats → Event

/-- The external collaborators and ambient configuration the handler
consumes, passed explicitly: the designated timestamp column name and the
fixed search-around field allow-list (config constants), the fatal
filter-merging SQL augmenter, the non-fatal order-by injector, the queue
feature flag, the results the execution engine returns to the first and
second dispatch of this request, and the work-group picker. -/
structure AroundCollab where
  ts_col : String
  default_search_around_fields : List String
  add_new_filters_with_and_operator : String → List (String × String) → Except String String
  check_or_add_order_by_timestamp : String → Bool → Except String String
  feature_query_queue_enabled : Bool
  fw_result : Except errors.Error Response
  bw_result : Except errors.Error Response
  get_work_group : List (Option String) → Option String

/-- The handler's query-string parameters, already URL-decoded; `sql` and
`query_fn` hold the result of the external base64 decoding (None when the
parameter is absent or its decoding failed, which the handler treats
identically). -/
structure AroundParams where
  key : Option String
  size : Option String
  sql : Option String
  query_fn : Option String
  regions : Option String
  clusters : Option String
  timeout : Option String

/-- Empty parameter set: every query parameter absent. -/
def AroundParams.none0 : AroundParams :=
  { key := none, size := none, sql := none, query_fn := none,
    regions := none, clusters := none, timeout := none }

/-- HashMap::insert on the filter map, represented as an association list:
replaces the value of an existing key, otherwise appends. -/
def insertKV (m : List (String × String)) (k v : String) : List (String × String) :=
  if m.any (fun p => p.1 = k) then
    m.map (fun p => if p.1 = k then (k, v) else p)
  else m ++ [(k, v)]

/-- One iteration of the allow-list filter loop (around.rs lines 94-101):
a field present in the payload and non-null is inserted with its string
value; null-valued or absent fields leave the filter set unchanged. -/
def filter_step (fields : List (String × JVal)) (acc : List (String × String))
    (field : String) : List (String × String) :=
  match JVal.objGet fields field with
  | some v => if v.isNull then acc else insertKV acc field (get_string_value v)
  | none => acc

/-- Payload processing (around.rs lines 85-103): a timestamp-column field
whose value is an i64 overrides the pivot key; each allow-listed field
present and non-null in the payload becomes a filter with its string
value. Returns the (possibly overridden) pivot key and the filter set. -/
def payload_key_filters (ts_col : String) (allow_fields : List String)
    (around_key0 : Int) (body : Option JVal) : Int × List (String × String) :=
  match body with
  | none => (around_key0, [])
  | some data =>
    match data with
    | .obj fields =>
      let k := match (JVal.objGet fields ts_col).bind JVal.as_i64 with
        | some ts => ts
        | none => around_key0
      (k, allow_fields.foldl (filter_step fields) [])
    | _ => (around_key0, [])

/-- Digit-list accumulator for integer parsing; a non-digit character
fails the parse, an empty digit sequence yields none. -/
def parse_nat_digits : List Char → Option Nat → Option Nat
  | [], acc => acc
  | ch :: rest, acc =>
    if ch.isDigit then
      parse_nat_digits rest (some ((acc.getD 0) * 10 + (ch.toNat - 48)))
    else none

/-- Rust str::parse::<i64>: optional sign followed by decimal digits
(i64 overflow is out of the model; the handler's inputs stay in range). -/
def parse_i64 (s : String) : Option Int :=
  match s.data with
  | '-' :: rest => (parse_nat_digits rest none).map (fun n => -(n : Int))
  | '+' :: rest => (parse_nat_digits rest none).map (fun n => (n : Int))
  | l => (parse_nat_digits l none).map (fun n => (n : Int))

/-- Parse an optional integer parameter with a default on absence or parse
failure (the Rust `map_or(d, |v| v.parse().unwrap_or(d))` idiom). -/
def parse_i64_or (d : Int) : Option String → Int
  | some v => (parse_i64 v).getD d
  | none => d

/-- Rust str::split(',') materialized as the list of segments. -/
def split_commas_aux : List Char → List Char → List (List Char)
  | [], cur => [cur.reverse]
  | c :: rest, cur =>
    if c = ',' then cur.reverse :: split_commas_aux rest []
    else split_commas_aux rest (c :: cur)

/-- Comma-split a list parameter, dropping empty tokens (around.rs lines
113-126). -/
def split_csv : Option String → List String
  | some s => ((split_commas_aux s.data []).filter
      (fun t => ¬ t.isEmpty)).map (fun t => String.mk t)
  | none => []

/-- Whitespace as stripped by str::trim (ASCII subset suffices here). -/
def isWs (ch : Char) : Bool := (ch = ' ') || (ch = '\t') || (ch = '\n') || (ch = '\r')

/-- vrl_function.trim().ends_with('.'): the last non-whitespace character
is the terminator dot. -/
def trim_ends_with_dot (s : String) : Bool :=
  match s.data.reverse.dropWhile isWs with
  | c :: _ => c = '.'
  | [] => false

/-- The request context the builder phase produces. -/
structure Ctx where
  around_key : Int
  around_sql : String
  around_size : Int
  query_fn : Option String
  regions : List String
  clusters : List String
  timeout : Int
deriving DecidableEq

/-- Query Context Builder (around.rs lines 60-126 and 152-154): pivot key
from the `key` parameter with fallback 0, transform expression normalized
to end in the `.` terminator, SQL from the decoded `sql` parameter with
fallback to `SELECT * FROM "<stream>" `, pivot/filters from the payload,
fatal AND-merging of extracted filters into the SQL, window size with
default 10, comma-split region and cluster lists, timeout with default 0. -/
def build_ctx (c : AroundCollab) (stream_name : String)
    (query : AroundParams) (body : Option JVal) : Except String Ctx :=
  let around_key0 := parse_i64_or 0 query.key
  let query_fn := query.query_fn.map
    (fun v => if trim_ends_with_dot v then v else v ++ " \n .")
  let default_sql := "SELECT * FROM \"" ++ stream_name ++ "\" "
  let around_sql0 := query.sql.getD default_sql
  let kf := payload_key_filters c.ts_col c.default_search_around_fields around_key0 body
  let sqlRes : Except String String :=
    if kf.2.isEmpty then .ok around_sql0
    else c.add_new_filters_with_and_operator around_sql0 kf.2
  match sqlRes with
  | .error e => .error e
  | .ok around_sql =>
    .ok { around_key := kf.1,
          around_sql := around_sql,
          around_size := parse_i64_or 10 query.size,
          query_fn := query_fn,
          regions := split_csv query.regions,
          clusters := split_csv query.clusters,
          timeout := parse_i64_or 0 query.timeout }

/-- check_or_add_order_by_timestamp with the handler's `unwrap_or`
fallback: on injection failure the original SQL is used unchanged. -/
def order_by_or_self (c : AroundCollab) (sql : String) (desc : Bool) : String :=
  match c.check_or_add_order_by_timestamp sql desc with
  | .ok s => s
  | .error _ => sql

/-- The search Request the handler constructs for one phase (both phases
build the identical literal, differing only in sql, time range). -/
def mk_search_req (sql : String) (query_fn : Option String) (size start_time end_time : Int)
    (regions clusters : List String) (timeout : Int) : Request :=
  { query :=
    { sql := sql, «from» := 0, size := size, start_time := start_time,
      end_time := end_time, quick_mode := false, query_type := "",
      track_total_hits := false, uses_zo_fn := false, query_fn := query_fn,
      action_id := none, skip_wal := false, streaming_output := false,
      streaming_id := none },
    encoding := RequestEncoding.Empty, regions := regions,
    clusters := clusters, timeout := timeout,
    search_type := some SearchEventType.UI, search_event_context := none,
    use_cache := none }

/-- 900 seconds in microseconds: the half-window width. -/
def half_window_us : Int := 900000000

/-- The forward-phase request (around.rs lines 166-193): ascending order
injected, size = around_size / 2 (Rust i64 division truncates toward zero,
hence Int.tdiv), time range [pivot - 15m, pivot]. -/
def forward_req (c : AroundCollab) (ctx : Ctx) : Request :=
  mk_search_req (order_by_or_self c ctx.around_sql false) ctx.query_fn
    (ctx.around_size.tdiv 2) (ctx.around_key - half_window_us) ctx.around_key
    ctx.regions ctx.clusters ctx.timeout

/-- The backward-phase request (around.rs lines 222-249): descending order
injected, size = around_size / 2, time range [pivot, pivot + 15m]. -/
def backward_req (c : AroundCollab) (ctx : Ctx) : Request :=
  mk_search_req (order_by_or_self c ctx.around_sql true) ctx.query_fn
    (ctx.around_size.tdiv 2) ctx.around_key (ctx.around_key + half_window_us)
    ctx.regions ctx.clusters ctx.timeout

/-- Error translation performed inline in the forward-failure branch
(around.rs lines 203-218): a cancelled query code maps to 429 with the
structured trace-id body, any other classified code to 500 with the same
body shape, and any unclassified error to 500 with a generic message body. -/
def forward_error_response (trace_id : String) : errors.Error → HttpResponse
  | .ErrorCode code =>
    match code with
    | .SearchCancelQuery m =>
      ⟨429, .error_code_with_trace_id (.SearchCancelQuery m) (some trace_id)⟩
    | c => ⟨500, .error_code_with_trace_id c (some trace_id)⟩
  | e => ⟨500, .errorMsg 500 e.toMessage⟩

/-- Error translation performed inline in the backward-failure branch
(around.rs lines 259-274); the source duplicates the forward branch's
match verbatim. -/
def backward_error_response (trace_id : String) : errors.Error → HttpResponse
  | .ErrorCode code =>
    match code with
    | .SearchCancelQuery m =>
      ⟨429, .error_code_with_trace_id (.SearchCancelQuery m) (some trace_id)⟩
    | c => ⟨500, .error_code_with_trace_id c (some trace_id)⟩
  | e => ⟨500, .errorMsg 500 e.toMessage⟩

/-- The merge loops (around.rs lines 280-288): backward hits are pushed in
reverse index order, then forward hits in order. -/
def merge_hits (backward forward : List JVal) : List JVal :=
  ((List.range backward.length).map
    (fun i => ((backward.get? (backward.length - 1 - i)).getD .null))) ++ forward

/-- The gauge/lock event segment (around.rs lines 128-150): increment the
pending gauge, acquire the queue lock, drop it at once when the queue
feature is disabled, then decrement the gauge. -/
def gauge_lock_events (c : AroundCollab) (org_id : String) : List Event :=
  [Event.gaugeInc org_id, Event.lockAcquire] ++
    (if c.feature_query_queue_enabled then [] else [Event.lockDrop]) ++
    [Event.gaugeDec org_id]

/-- The merged response (around.rs lines 279-293): defaults everywhere,
then hits, total, size, scan_size, took and cached_ratio overwritten. -/
def merged_response (ctx : Ctx) (resp_forward resp_backward : Response) : Response :=
  let hits := merge_hits resp_backward.hits resp_forward.hits
  { Response.default with
    hits := hits,
    total := hits.length,
    size := ctx.around_size,
    scan_size := resp_forward.scan_size + resp_backward.scan_size,
    took := resp_forward.took + resp_backward.took,
    cached_ratio := (resp_forward.cached_ratio + resp_backward.cached_ratio) / 2 }

/-- The usage record built on success (around.rs lines 298-324). The
`request_body` is taken from the still-in-scope `req` binding, which at
that point is the backward request. -/
def merged_req_stats (c : AroundCollab) (ctx : Ctx) (trace_id : String)
    (user_id : Option String) (resp_forward resp_backward : Response)
    (resp : Response) : RequestStats :=
  { RequestStats.default with
    records := (resp.hits.length : Int),
    request_body := some (backward_req c ctx).query.sql,
    user_email := user_id,
    min_ts := some (ctx.around_key - half_window_us),
    max_ts := some (ctx.around_key + half_window_us),
    cached_ratio := some resp.cached_ratio,
    trace_id := some trace_id,
    took_wait_in_queue :=
      match resp_forward.took_detail, resp_backward.took_detail with
      | some f, some b => some (f.cluster_wait_queue + b.cluster_wait_queue)
      | some f, none => some f.cluster_wait_queue
      | none, some b => some b.cluster_wait_queue
      | none, none => none,
    work_group := c.get_work_group [resp_forward.work_group, resp_backward.work_group] }

/-- The dispatch-and-merge phase (around.rs lines 166-337), entered after
the builder succeeded: dispatch the forward request; on engine failure
report the failed-request metric and return the translated error without
issuing the backward request. Otherwise dispatch the backward request; on
failure likewise return its translated error, discarding forward results.
On double success merge, report the success metric, emit the usage record
and return the merged response. -/
def around_core (c : AroundCollab) (trace_id org_id : String)
    (user_id : Option String) (ctx : Ctx) : List Event × Except String HttpResponse :=
  let pre := gauge_lock_events c org_id
  let reqF := forward_req c ctx
  match c.fw_result with
  | .error err =>
    (pre ++ [Event.dispatch reqF, Event.reportMetrics "500" "_around"],
     .ok (forward_error_response trace_id err))
  | .ok resp_forward =>
    let reqB := backward_req c ctx
    match c.bw_result with
    | .error err =>
      (pre ++ [Event.dispatch reqF, Event.dispatch reqB,
               Event.reportMetrics "500" "_around"],
       .ok (backward_error_response trace_id err))
    | .ok resp_backward =>
      let resp := merged_response ctx resp_forward resp_backward
      let req_stats := merged_req_stats c ctx trace_id user_id resp_forward resp_backward resp
      (pre ++ [Event.dispatch reqF, Event.dispatch reqB,
               Event.reportMetrics "200" "_around",
               Event.reportUsage req_stats],
       .ok ⟨200, .searchResponse resp⟩)

/-- The around handler (around.rs lines 48-338): build the query context
(a filter-augmentation failure exits early as a request error, before the
gauge is touched), then run the gated dispatch-and-merge phase. -/
def around (c : AroundCollab) (trace_id org_id stream_name : String)
    (query : AroundParams) (body : Option JVal) (user_id : Option String) :
    List Event × Except String HttpResponse :=
  match build_ctx c stream_name query body with
  | .error e => ([], .error e)
  | .ok ctx => around_core c trace_id org_id user_id ctx

/-- The sequence of requests dispatched to the execution engine, in order. -/
def dispatched (tr : List Event) : List Request :=
  tr.filterMap (fun e => match e with
    | .dispatch r => some r
    | _ => none)

/-- The usage records emitted, in order. -/
def usage_events (tr : List Event) : List RequestStats :=
  tr.filterMap (fun e => match e with
    | .reportUsage s => some s
    | _ => none)

/-- Is an event a pending-gauge increment? -/
def isGaugeInc : Event → Bool
  | .gaugeInc _ => true
  | _ => false

/-- Is an event a pending-gauge decrement? -/
def isGaugeDec : Event → Bool
  | .gaugeDec _ => true
  | _ => false

/-- Is an event a search dispatch? -/
def isDispatchEv : Event → Bool
  | .dispatch _ => true
  | _ => false

/-- Timestamp of a hit record: its `_timestamp` field read as i64, with 0
for hits that carry none. -/
def hit_ts (h : JVal) : Int :=
  match h with
  | .obj fields => ((JVal.objGet fields "_timestamp").bind JVal.as_i64).getD 0
  | _ => 0

/-- Executable check that a hit list is ascending by timestamp. -/
def isAscendingByTs : List JVal → Bool
  | [] => true
  | [_] => true
  | a :: b :: rest => decide (hit_ts a ≤ hit_ts b) && isAscendingByTs (b :: rest)

/-- Executable check that a hit list is descending by timestamp. -/
def isDescendingByTs : List JVal → Bool
  | [] => true
  | [_] => true
  | a :: b :: rest => decide (hit_ts b ≤ hit_ts a) && isDescendingByTs (b :: rest)

/-- Executable check that every hit's timestamp lies in [lo, hi]. -/
def allInRange (hs : List JVal) (lo hi : Int) : Bool :=
  hs.all (fun h => decide (lo ≤ hit_ts h) && decide (hit_ts h ≤ hi))

end OO

namespace OO

/-- Forward-phase hits of the concrete scenario: one record half-way into
the forward-dispatched range (timestamp 500,000,000). -/
def c1_fw_hits : List JVal := [JVal.obj [("_timestamp", JVal.int 500000000)]]

/-- Backward-phase hits of the concrete scenario: one record half-way into
the backward-dispatched range (timestamp 1,500,000,000). -/
def c1_bw_hits : List JVal := [JVal.obj [("_timestamp", JVal.int 1500000000)]]

/-- Concrete collaborator fixture: timestamp column `_timestamp`, a
one-field allow-list, identity filter augmentation, order-by injection
that appends a clause, queue feature disabled, both engine phases
succeeding with the single-hit results above. -/
def base_collab : AroundCollab :=
  { ts_col := "_timestamp",
    default_search_around_fields := ["host"],
    add_new_filters_with_and_operator := fun s _ => .ok (s ++ " WHERE x = 1"),
    check_or_add_order_by_timestamp := fun s d =>
      .ok (s ++ (if d then " ORDER BY ts DESC" else " ORDER BY ts ASC")),
    feature_query_queue_enabled := false,
    fw_result := .ok { Response.default with hits := c1_fw_hits },
    bw_result := .ok { Response.default with hits := c1_bw_hits },
    get_work_group := fun _ => none }

/-- Concrete request parameters: pivot key 1,000,000,000 microseconds and
window size 10. -/
def key_params : AroundParams :=
  { AroundParams.none0 with key := some "1000000000", size := some "10" }

end OO

namespace OO

theorem dispatched_append (a b : List Event) :
    dispatched (a ++ b) = dispatched a ++ dispatched b := by
  simp [dispatched]

theorem dispatched_gauge_lock (c : AroundCollab) (org : String) :
    dispatched (gauge_lock_events c org) = [] := by
  cases hq : c.feature_query_queue_enabled <;>
    simp [gauge_lock_events, dispatched, hq]

/-- Claim C1: the spec demands that, whenever the forward phase's hits are
ascending and the backward phase's hits descending, each within its
dispatched time range, the merged sequence reverse(backward.hits) ++
forward.hits is globally ascending. The code violates this: with pivot
1,000,000,000 and window size 10 the forward phase is dispatched over
[100,000,000, 1,000,000,000] and the backward phase over
[1,000,000,000, 1,900,000,000], so the merge places the after-pivot hits
in front of the before-pivot hits; with one correctly-ordered in-range hit
per phase the returned sequence is [1,500,000,000, 500,000,000], which is
not ascending. -/
theorem C1_merge_not_ascending :
    isAscendingByTs c1_fw_hits = true ∧
    allInRange c1_fw_hits 100000000 1000000000 = true ∧
    isDescendingByTs c1_bw_hits = true ∧
    allInRange c1_bw_hits 1000000000 1900000000 = true ∧
    ((dispatched (around base_collab "t" "o" "s" key_params none none).1).map
      (fun r => (r.query.start_time, r.query.end_time))) =
      [(100000000, 1000000000), (1000000000, 1900000000)] ∧
    response_hits (around base_collab "t" "o" "s" key_params none none).2 =
      merge_hits c1_bw_hits c1_fw_hits ∧
    (response_hits (around base_collab "t" "o" "s" key_params none none).2).map hit_ts =
      [1500000000, 500000000] ∧
    isAscendingByTs (response_hits (around base_collab "t" "o" "s" key_params none none).2) = false :=
  ⟨by decide, by decide, by decide, by decide, by decide, rfl, by decide, by decide⟩

/-- Claim C2 as stated is false: for pivot key 1,000,000,000 and window
size 10 the forward sub-query is not dispatched with range
[1,000,000,000, 1,900,000,000] and the backward one not with
[100,000,000, 1,000,000,000]; the two ranges are the other way around. -/
theorem C2_counterexample :
    ¬ (((dispatched (around base_collab "t" "o" "s" key_params none none).1).map
      (fun r => (r.query.size, r.query.start_time, r.query.end_time))) =
      [(5, 1000000000, 1900000000), (5, 100000000, 1000000000)]) := by decide

/-- Claim C2, amended: for a request with pivot key 1,000,000,000
microseconds and window size 10, the forward sub-query is dispatched with
size 5 and time range [100,000,000, 1,000,000,000] and the backward
sub-query with size 5 and time range [1,000,000,000, 1,900,000,000]. -/
theorem C2_amended_dispatch :
    ((dispatched (around base_collab "t" "o" "s" key_params none none).1).map
      (fun r => (r.query.size, r.query.start_time, r.query.end_time))) =
      [(5, 100000000, 1000000000), (5, 1000000000, 1900000000)] := by decide

/-- Claim C5: the failure translator behaves identically for the forward
and the backward phase, and maps a cancelled/overloaded query code to the
429 status with the structured trace-id body, any other classified code to
the 500 status with the same structured trace-id body, and any
unclassified error to the 500 status with the generic body carrying the
error's textual message. -/
theorem C5_translator_phase_independent :
    (∀ trace_id e, forward_error_response trace_id e = backward_error_response trace_id e) ∧
    (∀ trace_id m, forward_error_response trace_id (.ErrorCode (.SearchCancelQuery m)) =
      ⟨429, .error_code_with_trace_id (.SearchCancelQuery m) (some trace_id)⟩) ∧
    (∀ trace_id tag m, forward_error_response trace_id (.ErrorCode (.otherCode tag m)) =
      ⟨500, .error_code_with_trace_id (.otherCode tag m) (some trace_id)⟩) ∧
    (∀ trace_id m, forward_error_response trace_id (.Message m) =
      ⟨500, .errorMsg 500 (errors.Error.toMessage (.Message m))⟩) := by
  refine ⟨?_, ?_, ?_, ?_⟩
  · intro trace_id e
    cases e with
    | ErrorCode code => cases code <;> rfl
    | Message m => rfl
  · intro trace_id m
    rfl
  · intro trace_id tag m
    rfl
  · intro trace_id m
    rfl

end OO

namespace OO

/-- Claim C3: when the forward dispatch to the execution engine fails, the
backward phase is never dispatched (exactly one request, the forward one,
reaches the engine), the handler's response is exactly the forward error's
translation, and that response carries no hits. -/
theorem C3_forward_error_fail_fast
    (c : AroundCollab) (trace_id org_id stream_name : String)
    (query : AroundParams) (body : Option JVal) (user_id : Option String)
    (ctx : Ctx) (e : errors.Error)
    (hb : build_ctx c stream_name query body = .ok ctx)
    (he : c.fw_result = .error e) :
    (around c trace_id org_id stream_name query body user_id).2 =
      .ok (forward_error_response trace_id e) ∧
    dispatched (around c trace_id org_id stream_name query body user_id).1 =
      [forward_req c ctx] ∧
    (forward_error_response trace_id e).body.hasHits = false := by
  have h1 : around c trace_id org_id stream_name query body user_id =
      (gauge_lock_events c org_id ++
        [Event.dispatch (forward_req c ctx), Event.reportMetrics "500" "_around"],
       .ok (forward_error_response trace_id e)) := by
    unfold around around_core
    rw [hb, he]
  refine ⟨by rw [h1], ?_, ?_⟩
  · rw [h1]
    rw [dispatched_append, dispatched_gauge_lock]
    rfl
  · cases e with
    | ErrorCode code => cases code <;> rfl
    | Message m => rfl

/-- Claim C4: when the forward phase succeeds and the backward dispatch
fails, the handler's response is exactly the backward error's translation,
both requests were dispatched, and the response carries no hits at all —
in particular none of the forward phase's hits. -/
theorem C4_backward_error_no_partial
    (c : AroundCollab) (trace_id org_id stream_name : String)
    (query : AroundParams) (body : Option JVal) (user_id : Option String)
    (ctx : Ctx) (f : Response) (e : errors.Error)
    (hb : build_ctx c stream_name query body = .ok ctx)
    (hf : c.fw_result = .ok f)
    (he : c.bw_result = .error e) :
    (around c trace_id org_id stream_name query body user_id).2 =
      .ok (backward_error_response trace_id e) ∧
    dispatched (around c trace_id org_id stream_name query body user_id).1 =
      [forward_req c ctx, backward_req c ctx] ∧
    (backward_error_response trace_id e).body.hasHits = false := by
  have h1 : around c trace_id org_id stream_name query body user_id =
      (gauge_lock_events c org_id ++
        [Event.dispatch (forward_req c ctx), Event.dispatch (backward_req c ctx),
         Event.reportMetrics "500" "_around"],
       .ok (backward_error_response trace_id e)) := by
    unfold around around_core
    rw [hb, hf, he]
  refine ⟨by rw [h1], ?_, ?_⟩
  · rw [h1]
    rw [dispatched_append, dispatched_gauge_lock]
    rfl
  · cases e with
    | ErrorCode code => cases code <;> rfl
    | Message m => rfl

/-- The context the builder produces for `key_params` on stream `s` with
no payload: pivot 1,000,000,000, default SQL, window size 10. -/
def base_ctx : Ctx :=
  { around_key := 1000000000, around_sql := "SELECT * FROM \"s\" ",
    around_size := 10, query_fn := none, regions := [], clusters := [],
    timeout := 0 }

/-- Collaborator fixture whose forward dispatch fails with a cancelled
query error. -/
def c3_collab : AroundCollab :=
  { base_collab with fw_result := .error (.ErrorCode (.SearchCancelQuery "cancel")) }

theorem C3_forward_error_fail_fast_witness :
    (around c3_collab "t" "o" "s" key_params none none).2 =
      .ok (forward_error_response "t" (.ErrorCode (.SearchCancelQuery "cancel"))) ∧
    dispatched (around c3_collab "t" "o" "s" key_params none none).1 =
      [forward_req c3_collab base_ctx] ∧
    (forward_error_response "t"
      (errors.Error.ErrorCode (.SearchCancelQuery "cancel"))).body.hasHits = false :=
  C3_forward_error_fail_fast c3_collab "t" "o" "s" key_params none none base_ctx
    (.ErrorCode (.SearchCancelQuery "cancel")) rfl rfl

/-- Collaborator fixture whose backward dispatch fails with an
unclassified error. -/
def c4_collab : AroundCollab :=
  { base_collab with bw_result := .error (.Message "backward boom") }

theorem C4_backward_error_no_partial_witness :
    (around c4_collab "t" "o" "s" key_params none none).2 =
      .ok (backward_error_response "t" (.Message "backward boom")) ∧
    dispatched (around c4_collab "t" "o" "s" key_params none none).1 =
      [forward_req c4_collab base_ctx, backward_req c4_collab base_ctx] ∧
    (backward_error_response "t" (errors.Error.Message "backward boom")).body.hasHits = false :=
  C4_backward_error_no_partial c4_collab "t" "o" "s" key_params none none base_ctx
    { Response.default with hits := c1_fw_hits } (.Message "backward boom") rfl rfl rfl

end OO

namespace OO

theorem usage_events_append (a b : List Event) :
    usage_events (a ++ b) = usage_events a ++ usage_events b := by
  simp [usage_events]

theorem usage_events_gauge_lock (c : AroundCollab) (org : String) :
    usage_events (gauge_lock_events c org) = [] := by
  cases hq : c.feature_query_queue_enabled <;>
    simp [gauge_lock_events, usage_events, hq]

theorem around_success_eq
    (c : AroundCollab) (trace_id org_id stream_name : String)
    (query : AroundParams) (body : Option JVal) (user_id : Option String)
    (ctx : Ctx) (f b : Response)
    (hb : build_ctx c stream_name query body = .ok ctx)
    (hf : c.fw_result = .ok f)
    (hbw : c.bw_result = .ok b) :
    around c trace_id org_id stream_name query body user_id =
      (gauge_lock_events c org_id ++
        [Event.dispatch (forward_req c ctx), Event.dispatch (backward_req c ctx),
         Event.reportMetrics "200" "_around",
         Event.reportUsage (merged_req_stats c ctx trace_id user_id f b
           (merged_response ctx f b))],
       .ok ⟨200, .searchResponse (merged_response ctx f b)⟩) := by
  unfold around around_core
  rw [hb, hf, hbw]

/-- Claim C6: on double success the returned response is the merged
response, whose total is exactly the sum of both phases' hit counts (no
cap), whose size is the originally requested window size, and whose scan
size, elapsed time and cache ratio are the sum, sum, and halved sum of the
two phases' values. -/
theorem C6_merged_stats
    (c : AroundCollab) (trace_id org_id stream_name : String)
    (query : AroundParams) (body : Option JVal) (user_id : Option String)
    (ctx : Ctx) (f b : Response)
    (hb : build_ctx c stream_name query body = .ok ctx)
    (hf : c.fw_result = .ok f)
    (hbw : c.bw_result = .ok b) :
    (around c trace_id org_id stream_name query body user_id).2 =
      .ok ⟨200, .searchResponse (merged_response ctx f b)⟩ ∧
    (merged_response ctx f b).total = f.hits.length + b.hits.length ∧
    (merged_response ctx f b).size = ctx.around_size ∧
    (merged_response ctx f b).scan_size = f.scan_size + b.scan_size ∧
    (merged_response ctx f b).took = f.took + b.took ∧
    (merged_response ctx f b).cached_ratio = (f.cached_ratio + b.cached_ratio) / 2 := by
  have h1 := around_success_eq c trace_id org_id stream_name query body user_id ctx f b hb hf hbw
  refine ⟨by rw [h1], ?_, rfl, rfl, rfl, rfl⟩
  show (merge_hits b.hits f.hits).length = f.hits.length + b.hits.length
  simp [merge_hits, Nat.add_comm]

/-- Claim C7: on double success exactly one usage record is emitted, its
request_body is the backward phase's final SQL text (the descending
order-by rewrite of the context SQL), and whenever the forward SQL text
differs from the backward one it does not appear in the record. -/
theorem C7_usage_request_body_backward
    (c : AroundCollab) (trace_id org_id stream_name : String)
    (query : AroundParams) (body : Option JVal) (user_id : Option String)
    (ctx : Ctx) (f b : Response)
    (hb : build_ctx c stream_name query body = .ok ctx)
    (hf : c.fw_result = .ok f)
    (hbw : c.bw_result = .ok b) :
    (usage_events (around c trace_id org_id stream_name query body user_id).1).map
      (fun s => s.request_body) = [some (order_by_or_self c ctx.around_sql true)] ∧
    (order_by_or_self c ctx.around_sql false ≠ order_by_or_self c ctx.around_sql true →
      ∀ s ∈ usage_events (around c trace_id org_id stream_name query body user_id).1,
        s.request_body ≠ some (order_by_or_self c ctx.around_sql false)) := by
  have h1 := around_success_eq c trace_id org_id stream_name query body user_id ctx f b hb hf hbw
  have h2 : usage_events (around c trace_id org_id stream_name query body user_id).1 =
      [merged_req_stats c ctx trace_id user_id f b (merged_response ctx f b)] := by
    rw [h1]
    rw [usage_events_append, usage_events_gauge_lock]
    rfl
  constructor
  · rw [h2]
    rfl
  · intro hne s hs
    rw [h2] at hs
    rw [List.mem_singleton] at hs
    subst hs
    intro hcc
    have h3 : order_by_or_self c ctx.around_sql true = order_by_or_self c ctx.around_sql false :=
      Option.some.inj hcc
    exact hne h3.symm

/-- Claim C10: on double success every field of the returned response
other than hits, total, size, scan_size, took and cached_ratio keeps its
default value; in particular from, took_detail, work_group and trace_id
are never copied from either phase's result. -/
theorem C10_frame_defaults
    (c : AroundCollab) (trace_id org_id stream_name : String)
    (query : AroundParams) (body : Option JVal) (user_id : Option String)
    (ctx : Ctx) (f b : Response)
    (hb : build_ctx c stream_name query body = .ok ctx)
    (hf : c.fw_result = .ok f)
    (hbw : c.bw_result = .ok b) :
    (around c trace_id org_id stream_name query body user_id).2 =
      .ok ⟨200, .searchResponse (merged_response ctx f b)⟩ ∧
    (merged_response ctx f b).«from» = Response.default.«from» ∧
    (merged_response ctx f b).took_detail = none ∧
    (merged_response ctx f b).work_group = none ∧
    (merged_response ctx f b).trace_id = Response.default.trace_id ∧
    (merged_response ctx f b).columns = Response.default.columns ∧
    (merged_response ctx f b).idx_scan_size = Response.default.idx_scan_size ∧
    (merged_response ctx f b).scan_records = Response.default.scan_records ∧
    (merged_response ctx f b).function_error = Response.default.function_error ∧
    Response.is_partial (merged_response ctx f b) = Response.is_partial Response.default ∧
    (merged_response ctx f b).result_cache_ratio = Response.default.result_cache_ratio := by
  have h1 := around_success_eq c trace_id org_id stream_name query body user_id ctx f b hb hf hbw
  exact ⟨by rw [h1], rfl, rfl, rfl, rfl, rfl, rfl, rfl, rfl, rfl, rfl⟩

end OO

namespace OO

/-- The forward result the base fixture's engine returns. -/
def fw_resp : Response := { Response.default with hits := c1_fw_hits }

/-- The backward result the base fixture's engine returns. -/
def bw_resp : Response := { Response.default with hits := c1_bw_hits }

/-- Request parameters asking for a window of size 1, smaller than the
two hits the engine fixture returns. -/
def c6_params : AroundParams := { AroundParams.none0 with size := some "1" }

/-- The context built for `c6_params` on stream `s` with no payload. -/
def c6_ctx : Ctx :=
  { around_key := 0, around_sql := "SELECT * FROM \"s\" ",
    around_size := 1, query_fn := none, regions := [], clusters := [],
    timeout := 0 }

theorem C6_merged_stats_witness :
    (around base_collab "t" "o" "s" c6_params none none).2 =
      .ok ⟨200, .searchResponse (merged_response c6_ctx fw_resp bw_resp)⟩ ∧
    (merged_response c6_ctx fw_resp bw_resp).total =
      fw_resp.hits.length + bw_resp.hits.length ∧
    (merged_response c6_ctx fw_resp bw_resp).size = c6_ctx.around_size ∧
    (merged_response c6_ctx fw_resp bw_resp).scan_size =
      fw_resp.scan_size + bw_resp.scan_size ∧
    (merged_response c6_ctx fw_resp bw_resp).took = fw_resp.took + bw_resp.took ∧
    (merged_response c6_ctx fw_resp bw_resp).cached_ratio =
      (fw_resp.cached_ratio + bw_resp.cached_ratio) / 2 :=
  C6_merged_stats base_collab "t" "o" "s" c6_params none none c6_ctx fw_resp bw_resp
    rfl rfl rfl

theorem C7_usage_request_body_backward_witness :
    (usage_events (around base_collab "t" "o" "s" key_params none none).1).map
      (fun s => s.request_body) =
      [some (order_by_or_self base_collab base_ctx.around_sql true)] ∧
    (order_by_or_self base_collab base_ctx.around_sql false ≠
        order_by_or_self base_collab base_ctx.around_sql true →
      ∀ s ∈ usage_events (around base_collab "t" "o" "s" key_params none none).1,
        s.request_body ≠ some (order_by_or_self base_collab base_ctx.around_sql false)) :=
  C7_usage_request_body_backward base_collab "t" "o" "s" key_params none none base_ctx
    fw_resp bw_resp rfl rfl rfl

theorem C10_frame_defaults_witness :
    (around base_collab "t2" "o" "s" key_params none none).2 =
      .ok ⟨200, .searchResponse (merged_response base_ctx fw_resp bw_resp)⟩ ∧
    (merged_response base_ctx fw_resp bw_resp).«from» = Response.default.«from» ∧
    (merged_response base_ctx fw_resp bw_resp).took_detail = none ∧
    (merged_response base_ctx fw_resp bw_resp).work_group = none ∧
    (merged_response base_ctx fw_resp bw_resp).trace_id = Response.default.trace_id ∧
    (merged_response base_ctx fw_resp bw_resp).columns = Response.default.columns ∧
    (merged_response base_ctx fw_resp bw_resp).idx_scan_size = Response.default.idx_scan_size ∧
    (merged_response base_ctx fw_resp bw_resp).scan_records = Response.default.scan_records ∧
    (merged_response base_ctx fw_resp bw_resp).function_error = Response.default.function_error ∧
    Response.is_partial (merged_response base_ctx fw_resp bw_resp) = Response.is_partial Response.default ∧
    (merged_response base_ctx fw_resp bw_resp).result_cache_ratio = Response.default.result_cache_ratio :=
  C10_frame_defaults base_collab "t2" "o" "s" key_params none none base_ctx fw_resp bw_resp
    rfl rfl rfl

end OO

namespace OO

/-- The C8 scenario payload fields: a timestamp override, an allow-listed
string field, and a null-valued field. -/
def c8_fields : List (String × JVal) :=
  [("_timestamp", JVal.int 1234567890), ("host", JVal.str "h1"), ("level", JVal.null)]

/-- The C8 scenario payload object. -/
def c8_payload : JVal := JVal.obj c8_fields

theorem filter_step_host (acc : List (String × String)) :
    filter_step c8_fields acc "host" = insertKV acc "host" "h1" := rfl

theorem filter_step_level (acc : List (String × String)) :
    filter_step c8_fields acc "level" = acc := rfl

theorem filter_step_absent (acc : List (String × String)) (f : String)
    (h1 : f ≠ "_timestamp") (h2 : f ≠ "host") (h3 : f ≠ "level") :
    filter_step c8_fields acc f = acc := by
  simp [filter_step, c8_fields, JVal.objGet, h1, h2, h3]

theorem c8_fold_keeps : ∀ (l : List String), (∀ g ∈ l, g ≠ "_timestamp") →
    l.foldl (filter_step c8_fields) [("host", "h1")] = [("host", "h1")]
  | [], _ => rfl
  | f :: l, h => by
    have hf : f ≠ "_timestamp" := h f (List.mem_cons_self f l)
    have h' : ∀ g ∈ l, g ≠ "_timestamp" := fun g hg => h g (List.mem_cons_of_mem f hg)
    rw [List.foldl_cons]
    by_cases hh : f = "host"
    · subst hh
      rw [filter_step_host]
      exact c8_fold_keeps l h'
    · by_cases hl : f = "level"
      · subst hl
        rw [filter_step_level]
        exact c8_fold_keeps l h'
      · rw [filter_step_absent _ f hf hh hl]
        exact c8_fold_keeps l h'

theorem c8_fold_main : ∀ (l : List String), (∀ g ∈ l, g ≠ "_timestamp") →
    l.foldl (filter_step c8_fields) [] =
      (if "host" ∈ l then [("host", "h1")] else [])
  | [], _ => rfl
  | f :: l, h => by
    have hf : f ≠ "_timestamp" := h f (List.mem_cons_self f l)
    have h' : ∀ g ∈ l, g ≠ "_timestamp" := fun g hg => h g (List.mem_cons_of_mem f hg)
    have hmem : ("host" ∈ f :: l) ↔ ("host" = f ∨ "host" ∈ l) := List.mem_cons
    rw [List.foldl_cons]
    by_cases hh : f = "host"
    · subst hh
      rw [filter_step_host]
      show List.foldl (filter_step c8_fields) [("host", "h1")] l =
        (if "host" ∈ "host" :: l then [("host", "h1")] else [])
      rw [c8_fold_keeps l h', if_pos (List.mem_cons_self "host" l)]
    · have hnf : ¬ ("host" = f) := fun hx => hh hx.symm
      have step_eq : filter_step c8_fields [] f = [] := by
        by_cases hl : f = "level"
        · subst hl
          exact filter_step_level []
        · exact filter_step_absent [] f hf hh hl
      rw [step_eq, c8_fold_main l h']
      simp [hmem, hnf]

/-- Claim C8: for the payload with a 1234567890 timestamp override, an
allow-listed host field and a null-valued level field, and for any value
of the key query parameter, the pivot key becomes 1234567890 and the
filter set is exactly host ↦ h1: the timestamp field does not become a
filter and the null-valued field is dropped. The allow-list constant
itself lives outside the slice, so it is quantified, constrained exactly
as the claim and the spec describe it. -/
theorem C8_payload_pivot_and_filters
    (allowList : List String) (around_key0 : Int)
    (hhost : "host" ∈ allowList)
    (_hlevel : "level" ∉ allowList)
    (hts : "_timestamp" ∉ allowList) :
    payload_key_filters "_timestamp" allowList around_key0 (some c8_payload) =
      (1234567890, [("host", "h1")]) := by
  have h : ∀ g ∈ allowList, g ≠ "_timestamp" := fun g hg hgg => hts (hgg ▸ hg)
  have e1 : payload_key_filters "_timestamp" allowList around_key0 (some c8_payload) =
      (1234567890, allowList.foldl (filter_step c8_fields) []) := rfl
  rw [e1, c8_fold_main allowList h, if_pos hhost]

theorem C8_payload_pivot_and_filters_witness :
    "host" ∈ ["host"] ∧ ("level" ∉ (["host"] : List String)) ∧
    ("_timestamp" ∉ (["host"] : List String)) ∧
    payload_key_filters "_timestamp" ["host"] 42 (some c8_payload) =
      (1234567890, [("host", "h1")]) :=
  ⟨by decide, by decide, by decide,
    C8_payload_pivot_and_filters ["host"] 42 (by decide) (by decide) (by decide)⟩

end OO

namespace OO

/-- Collaborator fixture whose filter augmentation fails fatally. -/
def c9_bad_collab : AroundCollab :=
  { base_collab with
    add_new_filters_with_and_operator := fun _ _ => .error "filter merge failed" }

/-- A payload that yields a nonempty filter set, forcing the augmentation
call. -/
def c9_body : JVal := JVal.obj [("host", JVal.str "h1")]

/-- Claim C9 as stated is false: in an execution where the fatal filter
augmentation fails, the handler returns before the admission gate is
reached, so the pending gauge is incremented zero times rather than
exactly once. -/
theorem C9_counterexample :
    ¬ ((around c9_bad_collab "t" "o" "s" AroundParams.none0 (some c9_body) none).1.countP
        isGaugeInc = 1) := by decide

theorem gauge_lock_counts (c : AroundCollab) (org : String) :
    (gauge_lock_events c org).countP isGaugeInc = 1 ∧
    (gauge_lock_events c org).countP isGaugeDec = 1 ∧
    (gauge_lock_events c org).countP isDispatchEv = 0 := by
  unfold gauge_lock_events
  cases hq : c.feature_query_queue_enabled
  · exact ⟨rfl, rfl, rfl⟩
  · exact ⟨rfl, rfl, rfl⟩

theorem around_fw_error_eq
    (c : AroundCollab) (trace_id org_id stream_name : String)
    (query : AroundParams) (body : Option JVal) (user_id : Option String)
    (ctx : Ctx) (e : errors.Error)
    (hb : build_ctx c stream_name query body = .ok ctx)
    (he : c.fw_result = .error e) :
    around c trace_id org_id stream_name query body user_id =
      (gauge_lock_events c org_id ++
        [Event.dispatch (forward_req c ctx), Event.reportMetrics "500" "_around"],
       .ok (forward_error_response trace_id e)) := by
  unfold around around_core
  rw [hb, he]

theorem around_bw_error_eq
    (c : AroundCollab) (trace_id org_id stream_name : String)
    (query : AroundParams) (body : Option JVal) (user_id : Option String)
    (ctx : Ctx) (f : Response) (e : errors.Error)
    (hb : build_ctx c stream_name query body = .ok ctx)
    (hf : c.fw_result = .ok f)
    (he : c.bw_result = .error e) :
    around c trace_id org_id stream_name query body user_id =
      (gauge_lock_events c org_id ++
        [Event.dispatch (forward_req c ctx), Event.dispatch (backward_req c ctx),
         Event.reportMetrics "500" "_around"],
       .ok (backward_error_response trace_id e)) := by
  unfold around around_core
  rw [hb, hf, he]

/-- Claim C9, amended: the pending gauge's net change is zero on every
exit path; and in every execution in which the query-building phase
succeeds (in particular on both phases' error returns), the gauge is
incremented exactly once, immediately before the lock acquisition, and
decremented exactly once right after it, before any search is dispatched.
The execution where fatal filter augmentation fails exits before the gate
and touches the gauge zero times. -/
theorem C9_amended_gauge
    (c : AroundCollab) (trace_id org_id stream_name : String)
    (query : AroundParams) (body : Option JVal) (user_id : Option String) :
    ((around c trace_id org_id stream_name query body user_id).1.countP isGaugeInc =
      (around c trace_id org_id stream_name query body user_id).1.countP isGaugeDec) ∧
    (∀ ctx, build_ctx c stream_name query body = .ok ctx →
      ∃ rest, (around c trace_id org_id stream_name query body user_id).1 =
          gauge_lock_events c org_id ++ rest ∧
        (gauge_lock_events c org_id).countP isGaugeInc = 1 ∧
        (gauge_lock_events c org_id).countP isGaugeDec = 1 ∧
        (gauge_lock_events c org_id).countP isDispatchEv = 0 ∧
        rest.countP isGaugeInc = 0 ∧
        rest.countP isGaugeDec = 0) := by
  obtain ⟨g1, g2, g3⟩ := gauge_lock_counts c org_id
  cases hb : build_ctx c stream_name query body with
  | error e =>
    have h1 : around c trace_id org_id stream_name query body user_id = ([], .error e) := by
      unfold around
      rw [hb]
    constructor
    · rw [h1]
      rfl
    · intro ctx hctx
      exact absurd hctx (by simp)
  | ok ctx =>
    cases hf : c.fw_result with
    | error e =>
      have h1 := around_fw_error_eq c trace_id org_id stream_name query body user_id ctx e hb hf
      constructor
      · rw [h1, List.countP_append, List.countP_append, g1, g2]
        rfl
      · intro ctx' hctx
        obtain rfl : ctx = ctx' := Except.ok.inj hctx
        exact ⟨[Event.dispatch (forward_req c ctx), Event.reportMetrics "500" "_around"],
          by rw [h1], g1, g2, g3, rfl, rfl⟩
    | ok f =>
      cases hbw : c.bw_result with
      | error e =>
        have h1 := around_bw_error_eq c trace_id org_id stream_name query body user_id ctx f e hb hf hbw
        constructor
        · rw [h1, List.countP_append, List.countP_append, g1, g2]
          rfl
        · intro ctx' hctx
          obtain rfl : ctx = ctx' := Except.ok.inj hctx
          exact ⟨[Event.dispatch (forward_req c ctx), Event.dispatch (backward_req c ctx),
              Event.reportMetrics "500" "_around"],
            by rw [h1], g1, g2, g3, rfl, rfl⟩
      | ok b =>
        have h1 := around_success_eq c trace_id org_id stream_name query body user_id ctx f b hb hf hbw
        constructor
        · rw [h1, List.countP_append, List.countP_append, g1, g2]
          rfl
        · intro ctx' hctx
          obtain rfl : ctx = ctx' := Except.ok.inj hctx
          exact ⟨[Event.dispatch (forward_req c ctx), Event.dispatch (backward_req c ctx),
              Event.reportMetrics "200" "_around",
              Event.reportUsage (merged_req_stats c ctx trace_id user_id f b
                (merged_response ctx f b))],
            by rw [h1], g1, g2, g3, rfl, rfl⟩

theorem C9_amended_gauge_witness :
    (((around base_collab "t3" "o" "s" key_params none none).1.countP isGaugeInc) =
      ((around base_collab "t3" "o" "s" key_params none none).1.countP isGaugeDec)) ∧
    (∃ rest, (around base_collab "t3" "o" "s" key_params none none).1 =
        gauge_lock_events base_collab "o" ++ rest ∧
      (gauge_lock_events base_collab "o").countP isGaugeInc = 1 ∧
      (gauge_lock_events base_collab "o").countP isGaugeDec = 1 ∧
      (gauge_lock_events base_collab "o").countP isDispatchEv = 0 ∧
      rest.countP isGaugeInc = 0 ∧
      rest.countP isGaugeDec = 0) :=
  ⟨(C9_amended_gauge base_collab "t3" "o" "s" key_params none none).1,
   (C9_amended_gauge base_collab "t3" "o" "s" key_params none none).2 base_ctx rfl⟩

end OO
